import Mathlib

/-
Verification of the process-isolation module (sched.rs): clone, unshare,
setns, sched_setaffinity, CpuSet and CloneFlags.

Addresses and raw bit patterns are modelled as Nat; signed C integers
(function return values, exit codes) as Int.  The OS primitives
(libc::clone, libc::unshare, libc::setns, libc::sched_setaffinity) are
black-box external collaborators, modelled as function parameters from the
argument tuple the wrapper passes to the integer result the OS returns.
-/

namespace NixSched

/-- Subset of errno values; only EINVAL is produced locally by this module,
all other codes arrive from the OS. -/
inductive Errno where
  | EINVAL
  | EPERM
  | unknown (n : Nat)
deriving DecidableEq

/-- Modelled from the spec: the uniform error type of the crate (not under
src/); this module only uses the system-errno variant. -/
inductive Error where
  | Sys (e : Errno)
deriving DecidableEq

/-- Result type: success or a translated OS error. -/
abbrev Result (α : Type) := Except Error α

/-- Modelled from the spec: Errno::result (not under src/): failures are
detected by inspecting the primitive's return value (-1) and translating the
current OS error code into the error variant; any other value is success. -/
def errnoResult (res : Int) (errno : Errno) : Result Int :=
  if res = -1 then Except.error (Error.Sys errno) else Except.ok res

/-- Modelled from the spec: the opaque integer-backed process identifier
(not under src/). -/
structure Pid where
  raw : Int
deriving DecidableEq

def Pid.from_raw (n : Int) : Pid := ⟨n⟩

/-! ## CloneFlags (sched.rs lines 11-37)

The flag constants carry the Linux values of the libc crate.  The
libc_bitflags! expansion (the crate's macro, not under src/) is modelled
from the spec: a bit-flag set constructible from a raw integer, with
unknown bits rejected at construction, convertible back exactly. -/

structure CloneFlags where
  bits : Nat
deriving DecidableEq

namespace CloneFlags

def CLONE_VM : CloneFlags := ⟨0x00000100⟩
def CLONE_FS : CloneFlags := ⟨0x00000200⟩
def CLONE_FILES : CloneFlags := ⟨0x00000400⟩
def CLONE_SIGHAND : CloneFlags := ⟨0x00000800⟩
def CLONE_PTRACE : CloneFlags := ⟨0x00002000⟩
def CLONE_VFORK : CloneFlags := ⟨0x00004000⟩
def CLONE_PARENT : CloneFlags := ⟨0x00008000⟩
def CLONE_THREAD : CloneFlags := ⟨0x00010000⟩
def CLONE_NEWNS : CloneFlags := ⟨0x00020000⟩
def CLONE_SYSVSEM : CloneFlags := ⟨0x00040000⟩
def CLONE_SETTLS : CloneFlags := ⟨0x00080000⟩
def CLONE_PARENT_SETTID : CloneFlags := ⟨0x00100000⟩
def CLONE_CHILD_CLEARTID : CloneFlags := ⟨0x00200000⟩
def CLONE_DETACHED : CloneFlags := ⟨0x00400000⟩
def CLONE_UNTRACED : CloneFlags := ⟨0x00800000⟩
def CLONE_CHILD_SETTID : CloneFlags := ⟨0x01000000⟩
def CLONE_NEWCGROUP : CloneFlags := ⟨0x02000000⟩
def CLONE_NEWUTS : CloneFlags := ⟨0x04000000⟩
def CLONE_NEWIPC : CloneFlags := ⟨0x08000000⟩
def CLONE_NEWUSER : CloneFlags := ⟨0x10000000⟩
def CLONE_NEWPID : CloneFlags := ⟨0x20000000⟩
def CLONE_NEWNET : CloneFlags := ⟨0x40000000⟩
def CLONE_IO_FLAG : CloneFlags := ⟨0x80000000⟩

/-- Union of every recognized flag bit (bitflags all()). -/
def all : CloneFlags :=
  ⟨ CLONE_VM.bits ||| CLONE_FS.bits ||| CLONE_FILES.bits |||
    CLONE_SIGHAND.bits ||| CLONE_PTRACE.bits ||| CLONE_VFORK.bits |||
    CLONE_PARENT.bits ||| CLONE_THREAD.bits ||| CLONE_NEWNS.bits |||
    CLONE_SYSVSEM.bits ||| CLONE_SETTLS.bits ||| CLONE_PARENT_SETTID.bits |||
    CLONE_CHILD_CLEARTID.bits ||| CLONE_DETACHED.bits |||
    CLONE_UNTRACED.bits ||| CLONE_CHILD_SETTID.bits |||
    CLONE_NEWCGROUP.bits ||| CLONE_NEWUTS.bits ||| CLONE_NEWIPC.bits |||
    CLONE_NEWUSER.bits ||| CLONE_NEWPID.bits ||| CLONE_NEWNET.bits |||
    CLONE_IO_FLAG.bits ⟩

/-- Modelled from the spec: construction from a raw integer, rejecting any
bit not among the recognized constants (bitflags from_bits). -/
def from_bits (raw : Nat) : Option CloneFlags :=
  if raw &&& all.bits = raw then some ⟨raw⟩ else none

end CloneFlags

/-! ## CpuSet (sched.rs lines 41-76)

libc::cpu_set_t is a fixed-size bit array of 8 * size_of bits (128 bytes,
1024 bits on the target); the libc macros CPU_ISSET / CPU_SET / CPU_CLR
test, set and clear the bit at a given index.  The bit array is modelled
as its characteristic function. -/

def size_of_cpu_set_t : Nat := 128

/-- CPU_ISSET: test the bit at the given index. -/
def CPU_ISSET (field : Nat) (s : Nat → Bool) : Bool := s field

/-- CPU_SET: set the bit at the given index to 1. -/
def CPU_SET_BIT (field : Nat) (s : Nat → Bool) : Nat → Bool :=
  fun j => if j = field then true else s j

/-- CPU_CLR: clear the bit at the given index to 0. -/
def CPU_CLR (field : Nat) (s : Nat → Bool) : Nat → Bool :=
  fun j => if j = field then false else s j

structure CpuSet where
  cpu_set : Nat → Bool

/-- CpuSet::new: zero-initialized set. -/
def CpuSet.new : CpuSet := ⟨fun _ => false⟩

/-- CpuSet::is_set (sched.rs lines 53-59). -/
def CpuSet.is_set (s : CpuSet) (field : Nat) : Result Bool :=
  if field ≥ 8 * size_of_cpu_set_t then Except.error (Error.Sys Errno.EINVAL)
  else Except.ok (CPU_ISSET field s.cpu_set)

/-- CpuSet::set (sched.rs lines 61-67); the in-place mutation is returned
as the second component of the pair (state passing). -/
def CpuSet.set (s : CpuSet) (field : Nat) : Result Unit × CpuSet :=
  if field ≥ 8 * size_of_cpu_set_t then (Except.error (Error.Sys Errno.EINVAL), s)
  else (Except.ok (), ⟨ CPU_SET_BIT field s.cpu_set⟩)

/-- CpuSet::unset (sched.rs lines 69-75). -/
def CpuSet.unset (s : CpuSet) (field : Nat) : Result Unit × CpuSet :=
  if field ≥ 8 * size_of_cpu_set_t then (Except.error (Error.Sys Errno.EINVAL), s)
  else (Except.ok (), ⟨ CPU_CLR field s.cpu_set⟩)

/-! ## sched_setaffinity (sched.rs lines 78-86) -/

/-- Argument tuple the wrapper hands to libc::sched_setaffinity. -/
structure SchedSetaffinityCall where
  pid : Int
  cpusetsize : Nat
  mask : Nat → Bool

/-- Size of CpuSet: a repr(C) struct with the single field cpu_set of type
libc::cpu_set_t, hence the same size as cpu_set_t itself. -/
def size_of_CpuSet : Nat := size_of_cpu_set_t

/-- The arguments built at the call site (sched.rs lines 79-83). -/
def sched_setaffinity_call (pid : Pid) (cpuset : CpuSet) : SchedSetaffinityCall :=
  { pid := pid.raw, cpusetsize := size_of_CpuSet, mask := cpuset.cpu_set }

/-- sched_setaffinity: invoke the primitive on the built arguments and
translate its result.  prim is the black-box OS primitive, errno the OS
error code it leaves on failure. -/
def sched_setaffinity (prim : SchedSetaffinityCall → Int) (errno : Errno)
    (pid : Pid) (cpuset : CpuSet) : Result Unit :=
  let res := prim (sched_setaffinity_call pid cpuset)
  (errnoResult res errno).map (fun _ => ())

/-! ## clone and vec_to_stack (sched.rs lines 88-107 and 122-130) -/

/-- Native word size in bytes (size_of usize on the 64-bit target). -/
def usize_size : Nat := 8

/-- vec_to_stack (sched.rs lines 122-130): from the buffer's start address
(top_ptr, the name used by the source) and its length, advance to the top
of the region and subtract the top address's remainder modulo the native
word size.  mem::forget of the buffer is recorded in clone_events below. -/
def vec_to_stack (stack_ptr stack_len : Nat) : Nat :=
  let top_ptr := stack_ptr
  let base_ptr := top_ptr + stack_len
  base_ptr - base_ptr % usize_size

/-- Argument tuple the clone wrapper hands to libc::clone (the trampoline
entry point and the opaque closure pointer are fixed by the wrapper and
carry no numeric content, so only the stack and flag arguments appear). -/
structure CloneCall where
  child_stack : Nat
  flags : Nat

/-- The arguments built at the call site (sched.rs lines 98-104):
combined = flags.bits() | signal.unwrap_or(0). -/
def clone_call (stack_ptr stack_len : Nat) (flags : CloneFlags)
    (signal : Option Nat) : CloneCall :=
  { child_stack := vec_to_stack stack_ptr stack_len,
    flags := flags.bits ||| signal.getD 0 }

/-- clone: build the arguments, invoke the primitive, translate the result
into a Pid on success. -/
def clone (prim : CloneCall → Int) (errno : Errno) (stack_ptr stack_len : Nat)
    (flags : CloneFlags) (signal : Option Nat) : Result Pid :=
  let res := prim (clone_call stack_ptr stack_len flags signal)
  (errnoResult res errno).map Pid.from_raw

/-- Two's-complement truncation of a (64-bit) signed value to c_int, the
semantics of the cast on sched.rs line 95. -/
def intCast32 (x : Int) : Int :=
  let m := x % 4294967296
  if m < 2147483648 then m else m - 4294967296

/-- The closure type: an effectful one-shot callable, modelled as a state
transformer so that the number of invocations is observable. -/
abbrev CloneCb (σ : Type) := σ → Int × σ

/-- The trampoline (sched.rs lines 93-96): reclaim the closure, invoke it,
return its result cast to c_int. -/
def callback {σ : Type} (cb : CloneCb σ) (s : σ) : Int × σ :=
  let r := cb s
  (intCast32 r.1, r.2)

/-- An instrumented closure returning r and counting its invocations. -/
def counting_cb (r : Int) : CloneCb Nat := fun n => (r, n + 1)

/-- Events of one execution of clone, in program order: mem::forget of the
stack buffer (inside vec_to_stack, line 125) happens while the arguments
are built, strictly before the primitive is invoked (line 100); res is the
primitive's return value, and no event depends on it because the source
does nothing with the buffer on either the success or the failure path. -/
inductive CloneEvent where
  | forget_stack
  | call_primitive (child_stack : Nat) (flags : Nat)
  | free_stack
deriving DecidableEq

/-- Trace of buffer-relevant events of clone (sched.rs lines 98-106). -/
def clone_events (stack_ptr stack_len : Nat) (flags : CloneFlags)
    (signal : Option Nat) (_res : Int) : List CloneEvent :=
  [ CloneEvent.forget_stack,
    CloneEvent.call_primitive (vec_to_stack stack_ptr stack_len)
      (flags.bits ||| signal.getD 0) ]

/-! ## unshare and setns (sched.rs lines 109-119) -/

/-- unshare: pass the raw flag bits to the primitive, translate the result. -/
def unshare (prim : Nat → Int) (errno : Errno) (flags : CloneFlags) : Result Unit :=
  (errnoResult (prim flags.bits) errno).map (fun _ => ())

/-- setns: pass the descriptor and the raw flag bits to the primitive,
translate the result. -/
def setns (prim : Int → Nat → Int) (errno : Errno) (fd : Int)
    (nstype : CloneFlags) : Result Unit :=
  (errnoResult (prim fd nstype.bits) errno).map (fun _ => ())

/-! ## Theorems -/

/-- C1: for every buffer, the stack pointer computed by vec_to_stack equals
the start address plus the length (the top of the region) minus the top
address remainder modulo the native word size, and the returned address is
therefore a multiple of the native word size. -/
theorem vec_to_stack_top_aligned (b n : Nat) :
    vec_to_stack b n = (b + n) - (b + n) % usize_size ∧
    usize_size ∣ vec_to_stack b n := by
  refine ⟨rfl, ?_⟩
  have e : vec_to_stack b n = (b + n) - (b + n) % 8 := rfl
  have eu : usize_size = 8 := rfl
  rw [e, eu]
  omega

/-- C2: for indices i, j below the bit capacity, set(i) makes is_set(i)
return true, unset(i) makes it return false, and for j different from i
neither operation changes the value is_set(j) reports. -/
theorem cpuset_set_unset_is_set (s : CpuSet) (i j : Nat)
    (hi : i < 8 * size_of_cpu_set_t) (hj : j < 8 * size_of_cpu_set_t)
    (hij : j ≠ i) :
    (s.set i).2.is_set i = Except.ok true ∧
    (s.unset i).2.is_set i = Except.ok false ∧
    (s.set i).2.is_set j = s.is_set j ∧
    (s.unset i).2.is_set j = s.is_set j := by
  have hi2 : ¬ (i ≥ 8 * size_of_cpu_set_t) := Nat.not_le.mpr hi
  have hj2 : ¬ (j ≥ 8 * size_of_cpu_set_t) := Nat.not_le.mpr hj
  simp [CpuSet.set, CpuSet.unset, CpuSet.is_set, CPU_ISSET, CPU_SET_BIT,
        CPU_CLR, hi2, hj2, hij]

/-- C2 witness at concrete indices 3 and 5 on the fresh set. -/
theorem cpuset_set_unset_is_set_witness :
    ((CpuSet.new.set 3).2.is_set 3 = Except.ok true ∧
     (CpuSet.new.unset 3).2.is_set 3 = Except.ok false ∧
     (CpuSet.new.set 3).2.is_set 5 = CpuSet.new.is_set 5 ∧
     (CpuSet.new.unset 3).2.is_set 5 = CpuSet.new.is_set 5) :=
  cpuset_set_unset_is_set CpuSet.new 3 5 (by decide) (by decide) (by decide)

/-- C3: for every index at or above the bit capacity, is_set, set and unset
each return the invalid-argument error and leave the set unchanged. -/
theorem cpuset_out_of_range (s : CpuSet) (i : Nat)
    (h : 8 * size_of_cpu_set_t ≤ i) :
    s.is_set i = Except.error (Error.Sys Errno.EINVAL) ∧
    s.set i = (Except.error (Error.Sys Errno.EINVAL), s) ∧
    s.unset i = (Except.error (Error.Sys Errno.EINVAL), s) := by
  simp [CpuSet.is_set, CpuSet.set, CpuSet.unset, h]

/-- C3 witness at the first out-of-range index, 1024. -/
theorem cpuset_out_of_range_witness :
    (CpuSet.new.is_set 1024 = Except.error (Error.Sys Errno.EINVAL) ∧
     CpuSet.new.set 1024 = (Except.error (Error.Sys Errno.EINVAL), CpuSet.new) ∧
     CpuSet.new.unset 1024 = (Except.error (Error.Sys Errno.EINVAL), CpuSet.new)) :=
  cpuset_out_of_range CpuSet.new 1024 (by decide)

/-- C4: every 32-bit raw integer whose set bits are all among the
recognized CloneFlags constants round-trips exactly through from_bits and
back to bits. -/
theorem clone_flags_roundtrip (raw : Nat) (h32 : raw < 4294967296)
    (h : ∀ k < 32, raw.testBit k = true → CloneFlags.all.bits.testBit k = true) :
    (CloneFlags.from_bits raw).map CloneFlags.bits = some raw := by
  have hland : raw &&& CloneFlags.all.bits = raw := by
    apply Nat.eq_of_testBit_eq
    intro k
    rw [Nat.testBit_land]
    by_cases hk : k < 32
    · cases hrk : raw.testBit k
      · simp
      · simp [h k hk hrk]
    · have hb : raw.testBit k = false := by
        apply Nat.testBit_eq_false_of_lt
        calc raw < 4294967296 := h32
          _ = 2 ^ 32 := by norm_num
          _ ≤ 2 ^ k := Nat.pow_le_pow_right (by norm_num) (Nat.le_of_not_lt hk)
      simp [hb]
  simp [CloneFlags.from_bits, hland]

/-- C4 witness: raw value 768 (CLONE_VM with CLONE_FS) round-trips. -/
theorem clone_flags_roundtrip_witness :
    (CloneFlags.from_bits 768).map CloneFlags.bits = some 768 :=
  clone_flags_roundtrip 768 (by decide) (by decide)

/-- C5: the flag argument clone passes to the primitive is the raw flag
bits OR the signal number, the signal number being 0 when none is given. -/
theorem clone_combined_flags (b n : Nat) (flags : CloneFlags) (s : Nat) :
    (clone_call b n flags (some s)).flags = flags.bits ||| s ∧
    (clone_call b n flags none).flags = flags.bits := by
  constructor
  · rfl
  · show flags.bits ||| 0 = flags.bits
    exact Nat.or_zero _

/-- C6: the trampoline invokes the closure exactly once (the invocation
count rises by exactly one) and returns its isize result reduced modulo
2 to the 32, as the two's-complement value of c_int width. -/
theorem callback_truncates (r : Int) (n : Nat) :
    (callback (counting_cb r) n).2 = n + 1 ∧
    (callback (counting_cb r) n).1 % 4294967296 = r % 4294967296 ∧
    -2147483648 ≤ (callback (counting_cb r) n).1 ∧
    (callback (counting_cb r) n).1 < 2147483648 := by
  unfold callback counting_cb intCast32
  refine ⟨rfl, ?_, ?_, ?_⟩ <;> simp only [] <;> split <;> omega

/-- C7: unshare, setns and sched_setaffinity each return the translated
error exactly when the primitive returns the failure value -1, and plain
success otherwise; nothing is added, retried or swallowed. -/
theorem wrappers_pass_through (uprim : Nat → Int) (sprim : Int → Nat → Int)
    (aprim : SchedSetaffinityCall → Int) (errno : Errno) (flags : CloneFlags)
    (fd : Int) (pid : Pid) (cpuset : CpuSet) :
    unshare uprim errno flags =
      (if uprim flags.bits = -1 then Except.error (Error.Sys errno)
       else Except.ok ()) ∧
    setns sprim errno fd flags =
      (if sprim fd flags.bits = -1 then Except.error (Error.Sys errno)
       else Except.ok ()) ∧
    sched_setaffinity aprim errno pid cpuset =
      (if aprim (sched_setaffinity_call pid cpuset) = -1
       then Except.error (Error.Sys errno) else Except.ok ()) := by
  refine ⟨?_, ?_, ?_⟩
  · by_cases h : uprim flags.bits = -1 <;>
      simp [unshare, errnoResult, Except.map, h]
  · by_cases h : sprim fd flags.bits = -1 <;>
      simp [setns, errnoResult, Except.map, h]
  · by_cases h : aprim (sched_setaffinity_call pid cpuset) = -1 <;>
      simp [sched_setaffinity, errnoResult, Except.map, h]

/-- C8: sched_setaffinity passes the exact in-memory size of the CpuSet type
as the size argument, together with the bit array of the given set. -/
theorem sched_setaffinity_exact_size (pid : Pid) (cpuset : CpuSet) :
    (sched_setaffinity_call pid cpuset).cpusetsize = size_of_CpuSet ∧
    size_of_CpuSet = size_of_cpu_set_t ∧
    (sched_setaffinity_call pid cpuset).mask = cpuset.cpu_set :=
  ⟨rfl, rfl, rfl⟩

/-- C9: in every execution of clone, the failing ones included, the stack
buffer is forgotten before the primitive is invoked and no event ever
releases it back to normal ownership. -/
theorem clone_leaks_stack (b n : Nat) (flags : CloneFlags)
    (signal : Option Nat) (res : Int) :
    (clone_events b n flags signal res).head? = some CloneEvent.forget_stack ∧
    CloneEvent.call_primitive (vec_to_stack b n) (flags.bits ||| signal.getD 0)
      ∈ clone_events b n flags signal res ∧
    CloneEvent.free_stack ∉ clone_events b n flags signal res := by
  refine ⟨rfl, ?_, ?_⟩
  · simp [clone_events]
  · simp [clone_events]

/-- C9 witness on a failing execution (primitive returned -1). -/
theorem clone_leaks_stack_witness :
    ((clone_events 0 16 CloneFlags.CLONE_VM (some 17) (-1)).head? =
        some CloneEvent.forget_stack ∧
     CloneEvent.call_primitive (vec_to_stack 0 16)
        (CloneFlags.CLONE_VM.bits ||| (some 17).getD 0)
       ∈ clone_events 0 16 CloneFlags.CLONE_VM (some 17) (-1) ∧
     CloneEvent.free_stack ∉ clone_events 0 16 CloneFlags.CLONE_VM (some 17) (-1)) :=
  clone_leaks_stack 0 16 CloneFlags.CLONE_VM (some 17) (-1)

/-- C10: the computed stack pointer lies within the buffer region exactly
when the length is at least the top address remainder modulo the word size;
when the length is smaller than that remainder the pointer falls strictly
below the buffer base. -/
theorem vec_to_stack_range (b n : Nat) :
    ((b ≤ vec_to_stack b n ∧ vec_to_stack b n ≤ b + n) ↔
      (b + n) % usize_size ≤ n) ∧
    (n < (b + n) % usize_size → vec_to_stack b n < b) := by
  have e : vec_to_stack b n = (b + n) - (b + n) % 8 := rfl
  have eu : usize_size = 8 := rfl
  rw [e, eu]
  omega

/-- C10 witness: an empty buffer with unaligned base 5 yields a pointer
strictly below the base. -/
theorem vec_to_stack_range_witness : vec_to_stack 5 0 < 5 :=
  (vec_to_stack_range 5 0).2 (by decide)

end NixSched
